import Mathlib

/-!
Shallow embedding of `mini-elp/crates/ide/src/lib.rs`: the Host / Snapshot /
Cancellation protocol of the eqwalizer mini-ELP analysis layer.

The file under `src/` defines `AnalysisHost`, `Analysis`, the alias
`Cancellable<T> = Result<T, salsa::Cancelled>`, the query boundary
`Analysis::with_db`, the read-only accessors, and `impl Clone for Analysis`.
The query engine (`salsa`, re-exported through `elp_ide_db`) and the concrete
query functions (`elp_ide_db`, `elp_project_model`) are not part of the
source slice; they are modelled from the specification's description of the
Query Engine interface, with doc comments marking each such definition.
-/

namespace MiniElp

/-- Rust `FileId` (a `u32` newtype in `elp_base_db`), modelled as `Nat`. -/
abbrev FileId := Nat

/-- Rust `ProjectId` newtype, modelled as `Nat`. -/
abbrev ProjectId := Nat

/-- Rust `SourceRootId` newtype, modelled as `Nat`. -/
abbrev SourceRootId := Nat

/-- Rust `ModuleName` (a string newtype), modelled as `String`. -/
abbrev ModuleName := String

/-- Modelled from the spec: `elp_project_model::AppType` (not under `src/`),
the application kind a file may belong to. -/
inductive AppType where
  | app
  | dep
  | otp
deriving DecidableEq

/-- Modelled from the spec: `parse_server::Format` (not under `src/`), the
requested serialization format of abstract forms. -/
inductive Format where
  | offsetEtf
  | text
deriving DecidableEq

/-- Modelled from the spec: `LineIndex` (not under `src/`), data to convert
between absolute offsets and line/column positions; carried data abstracted
to its newline-offset table. -/
structure LineIndex where
  newlines : List Nat
deriving DecidableEq

/-- Modelled from the spec: `EqwalizerDiagnostics` (not under `src/`),
the diagnostics computed for a set of files; payload abstracted. -/
structure EqwalizerDiagnostics where
  info : String
deriving DecidableEq

/-- Modelled from the spec: the `Eqwalizer` handle (not under `src/`), the
low-level type-checker connection owned by the database; payload abstracted. -/
structure Eqwalizer where
  cmd : String
deriving DecidableEq

/-- Modelled from the spec: `ParseError` (not under `src/`); payload
abstracted to its message. -/
structure ParseError where
  msg : String
deriving DecidableEq

/-- Modelled from the spec: `ProjectData` (not under `src/`); payload
abstracted. -/
structure ProjectData where
  name : String
deriving DecidableEq

/-- Modelled from the spec: `AppData` (not under `src/`); only the
`project_id` field is consulted by the source slice. -/
structure AppData where
  project_id : ProjectId
deriving DecidableEq

/-- Modelled from the spec: `ModuleIndex` (not under `src/`), the
module-name/file-id resolution table of one project. -/
structure ModuleIndex where
  mod_to_file : List (ModuleName × FileId)
deriving DecidableEq

/-- Modelled from the spec: `ModuleIndex::file_for_module`, resolving a
module name to its file id. -/
def ModuleIndex.file_for_module (idx : ModuleIndex) (m : String) : Option FileId :=
  (idx.mod_to_file.find? (fun p => p.1 == m)).map Prod.snd

/-- Modelled from the spec: `ModuleIndex::module_for_file`, resolving a file
id back to its module name. -/
def ModuleIndex.module_for_file (idx : ModuleIndex) (f : FileId) : Option ModuleName :=
  (idx.mod_to_file.find? (fun p => p.2 == f)).map Prod.fst

/-- Modelled from the spec: the stored facts of one generation together with
the deterministic query functions the Query Engine (`elp_ide_db`, not under
`src/`) exposes over them. Each field is one salsa query used by the source
slice; queries are deterministic functions of the stored facts. -/
structure Facts where
  file_line_index : FileId → LineIndex
  eqwalizer_diagnostics : ProjectId → List FileId → Format → EqwalizerDiagnostics
  eqwalizer : Eqwalizer
  module_ast : FileId → Format → Except (List ParseError) (List Nat)
  file_source_root : FileId → SourceRootId
  app_data : SourceRootId → Option AppData
  project_data : ProjectId → ProjectData
  module_index : ProjectId → ModuleIndex
  file_app_type : FileId → Option AppType

/-- Modelled from the spec: `RootDatabase` (defined in `elp_ide_db`, not
under `src/`): one generation of the stored facts, its monotonically
increasing generation id, and the generation's Cancellation Flag (raised by
the Host when an edit begins, never lowered for that generation). -/
structure RootDatabase where
  gen : Nat
  flag : Bool
  facts : Facts

/-- Modelled from the spec: `salsa::ParallelDatabase::snapshot` (external
Query Engine): returns a read-only handle sharing the current generation's
stored facts and its Cancellation Flag. -/
def RootDatabase.snapshot (db : RootDatabase) : RootDatabase :=
  db

/-- Modelled from the spec: raising the current generation's Cancellation
Flag, the first step of an edit; monotone, touches nothing else. -/
def RootDatabase.raiseFlag (db : RootDatabase) : RootDatabase :=
  { db with flag := true }

/-- Rust `salsa::Cancelled` (external Query Engine): the typed cancellation
signal; a unit-like kind carrying no payload. -/
inductive Cancelled where
  | cancelled
deriving DecidableEq

/-- Rust line 30: `pub type Cancellable<T> = Result<T, salsa::Cancelled>;`. -/
abbrev Cancellable (T : Type) := Except Cancelled T

/-- Payload of a non-cancellation unwind (any other failure inside a query
closure), abstracted to its message. -/
abbrev UnwindPayload := String

/-- Modelled from the spec: the possible outcomes of running a query closure
once: normal completion with a value, an abort because the raised
Cancellation Flag was observed at a poll point, or any other failure, which
unwinds with its own payload. -/
inductive RunResult (T : Type) where
  | normal : T → RunResult T
  | cancelledUnwind : RunResult T
  | otherUnwind : UnwindPayload → RunResult T
deriving DecidableEq

/-- Outcome of `salsa::Cancelled::catch` around one run: either the boundary
returns a `Cancellable` value to the caller, or a non-cancellation unwind
keeps propagating past the boundary with its own payload. -/
inductive CatchResult (T : Type) where
  | returned : Cancellable T → CatchResult T
  | unwound : UnwindPayload → CatchResult T

/-- Modelled from the spec: `salsa::Cancelled::catch` (external Query
Engine), the Query Boundary conversion: a normal completion is wrapped as
success, the cancellation unwind becomes the typed `Cancelled` error, and
any other unwind propagates unchanged, never converted into `Cancelled`. -/
def Cancelled.catch {T : Type} (r : RunResult T) : CatchResult T :=
  match r with
  | .normal v => .returned (Except.ok v)
  | .cancelledUnwind => .returned (Except.error Cancelled.cancelled)
  | .otherUnwind e => .unwound e

/-- Modelled from the spec: one evaluation of a pure query closure against a
database handle. The Query Engine polls the generation's Cancellation Flag
at its poll points: an evaluation newly started under a raised flag aborts
with the cancellation unwind; under a lowered flag it runs to completion
with the computed value. -/
def execQuery {T : Type} (db : RootDatabase) (f : RootDatabase → T) : RunResult T :=
  if db.flag then RunResult.cancelledUnwind else RunResult.normal (f db)

/-- Rust lines 32–36: `AnalysisHost` stores the current state of the world. -/
structure AnalysisHost where
  db : RootDatabase

/-- Rust lines 59–62: `Analysis` is a snapshot of a world state at a moment
in time, holding `salsa::Snapshot<RootDatabase>`. -/
structure Analysis where
  db : RootDatabase

/-- Rust lines 41–45: `AnalysisHost::analysis` returns a snapshot of the
current state, via `self.db.snapshot()`. -/
def AnalysisHost.analysis (h : AnalysisHost) : Analysis :=
  { db := h.db.snapshot }

/-- Rust lines 47–49: `AnalysisHost::raw_database`. -/
def AnalysisHost.raw_database (h : AnalysisHost) : RootDatabase :=
  h.db

/-- Rust lines 50–52: `AnalysisHost::raw_database_mut`, the mutable escape
hatch; in the pure embedding a mutation through it is a function applied to
the stored database. -/
def AnalysisHost.raw_database_mut (h : AnalysisHost) (u : RootDatabase → RootDatabase) : AnalysisHost :=
  { db := u h.db }

/-- The public methods of the `impl AnalysisHost` block, Rust lines 38–53,
in source order. -/
def AnalysisHost.publicMethods : List String :=
  ["analysis", "raw_database", "raw_database_mut"]

/-- Rust lines 145–150: `Analysis::with_db` performs an operation on the
database that may be canceled: `salsa::Cancelled::catch(|| f(&self.db))`. -/
def Analysis.with_db {T : Type} (s : Analysis) (f : RootDatabase → T) : CatchResult T :=
  Cancelled.catch (execQuery s.db f)

/-- Rust lines 71–73: `Analysis::line_index`. -/
def Analysis.line_index (s : Analysis) (file_id : FileId) : CatchResult LineIndex :=
  s.with_db fun db => db.facts.file_line_index file_id

/-- Rust lines 76–83: `Analysis::eqwalizer_diagnostics`. -/
def Analysis.eqwalizer_diagnostics (s : Analysis) (project_id : ProjectId)
    (file_ids : List FileId) (format : Format) : CatchResult EqwalizerDiagnostics :=
  s.with_db fun db => db.facts.eqwalizer_diagnostics project_id file_ids format

/-- Rust lines 86–88: `Analysis::eqwalizer` — low-level access; returns
`&Eqwalizer` directly from the database, not through `with_db`. -/
def Analysis.eqwalizer (s : Analysis) : Eqwalizer :=
  s.db.facts.eqwalizer

/-- Rust lines 91–97: `Analysis::module_ast`. -/
def Analysis.module_ast (s : Analysis) (file_id : FileId) (format : Format) :
    CatchResult (Except (List ParseError) (List Nat)) :=
  s.with_db fun db => db.facts.module_ast file_id format

/-- Rust lines 99–103: `Analysis::project_data`; the closure is
`Some(db.project_data(db.app_data(db.file_source_root(file_id))?.project_id))`. -/
def Analysis.project_data (s : Analysis) (file_id : FileId) : CatchResult (Option ProjectData) :=
  s.with_db fun db =>
    match db.facts.app_data (db.facts.file_source_root file_id) with
    | none => none
    | some ad => some (db.facts.project_data ad.project_id)

/-- Rust lines 106–113: `Analysis::module_name`. -/
def Analysis.module_name (s : Analysis) (file_id : FileId) : CatchResult (Option ModuleName) :=
  s.with_db fun db =>
    match db.facts.app_data (db.facts.file_source_root file_id) with
    | none => none
    | some ad => (db.facts.module_index ad.project_id).module_for_file file_id

/-- Rust lines 115–117: `Analysis::module_index`. -/
def Analysis.module_index (s : Analysis) (project_id : ProjectId) : CatchResult ModuleIndex :=
  s.with_db fun db => db.facts.module_index project_id

/-- Rust lines 119–125: `Analysis::module_file_id`. -/
def Analysis.module_file_id (s : Analysis) (project_id : ProjectId) (m : String) :
    CatchResult (Option FileId) :=
  s.with_db fun db => (db.facts.module_index project_id).file_for_module m

/-- Rust lines 128–130: `Analysis::file_app_type`. -/
def Analysis.file_app_type (s : Analysis) (file_id : FileId) : CatchResult (Option AppType) :=
  s.with_db fun db => db.facts.file_app_type file_id

/-- Rust lines 153–159: `impl Clone for Analysis`, via `self.db.snapshot()`. -/
def Analysis.clone (s : Analysis) : Analysis :=
  { db := s.db.snapshot }

/-- Modelled from the spec: `Change` is an opaque description of modified
inputs whose effect on the stored facts is defined by the external Query
Engine; modelled by its effect. -/
structure Change where
  apply : Facts → Facts

/-- Modelled from the spec: edit application (absent from the source slice,
performed through `raw_database_mut` by callers): (a) raise the current
generation's Cancellation Flag; (b) wait for exclusivity (readers release);
(c) mutate the stored facts to reflect the change, bump the generation id,
and install a fresh, lowered Cancellation Flag. -/
def applyEditDb (c : Change) (db : RootDatabase) : RootDatabase :=
  let cancelling := db.raiseFlag
  { gen := cancelling.gen + 1, flag := false, facts := c.apply cancelling.facts }

/-- Modelled from the spec: `apply_edit` on the Host, realized through the
`raw_database_mut` escape hatch. -/
def AnalysisHost.apply_edit (h : AnalysisHost) (c : Change) : AnalysisHost :=
  h.raw_database_mut (applyEditDb c)

/-- Sample module index used by concrete witnesses. -/
def sampleModuleIndex : ModuleIndex :=
  { mod_to_file := [("main", 0), ("lists", 1)] }

/-- Sample stored facts used by concrete witnesses. -/
def sampleFacts : Facts :=
  { file_line_index := fun _ => { newlines := [0] }
  , eqwalizer_diagnostics := fun _ _ _ => { info := "ok" }
  , eqwalizer := { cmd := "eqwalizer" }
  , module_ast := fun _ _ => Except.ok [131, 104]
  , file_source_root := fun fid => fid
  , app_data := fun sr => if sr = 0 then some { project_id := 0 } else none
  , project_data := fun _ => { name := "proj" }
  , module_index := fun _ => sampleModuleIndex
  , file_app_type := fun _ => some AppType.app
  }

/-- Sample database at generation 0 with a lowered flag. -/
def sampleDb : RootDatabase :=
  { gen := 0, flag := false, facts := sampleFacts }

/-- Sample database at generation 0 with a raised flag. -/
def sampleDbRaised : RootDatabase :=
  { gen := 0, flag := true, facts := sampleFacts }

/-- C1: `Analysis::with_db` is exactly one `salsa::Cancelled::catch` around one
run of the computation (nothing is swallowed or retried inside the core); the
boundary wraps a normal completion as success, turns the cancellation unwind —
and only it — into the typed `Cancelled` error surfaced to the caller, and lets
any other failure propagate with its own payload, never converted into
`Cancelled`. -/
theorem with_db_query_boundary {T : Type} (s : Analysis) (f : RootDatabase → T)
    (v : T) (e : UnwindPayload) :
    s.with_db f = Cancelled.catch (execQuery s.db f) ∧
    Cancelled.catch (RunResult.normal v) = CatchResult.returned (Except.ok v) ∧
    Cancelled.catch (RunResult.cancelledUnwind : RunResult T) =
      CatchResult.returned (Except.error Cancelled.cancelled) ∧
    Cancelled.catch (RunResult.otherUnwind e : RunResult T) = CatchResult.unwound e ∧
    Cancelled.catch (RunResult.otherUnwind e : RunResult T) ≠
      CatchResult.returned (Except.error Cancelled.cancelled) ∧
    Cancelled.catch (RunResult.normal v) ≠
      CatchResult.returned (Except.error Cancelled.cancelled) := by
  refine ⟨rfl, rfl, rfl, rfl, ?_, ?_⟩ <;> simp [Cancelled.catch]

/-- C1 witness: the boundary conversion evaluated at concrete outcomes. -/
theorem with_db_query_boundary_witness :
    Cancelled.catch (RunResult.normal 7) = CatchResult.returned (Except.ok 7) ∧
    Cancelled.catch (RunResult.cancelledUnwind : RunResult Nat) =
      CatchResult.returned (Except.error Cancelled.cancelled) ∧
    Cancelled.catch (RunResult.otherUnwind "boom" : RunResult Nat) =
      CatchResult.unwound "boom" := by
  have h := with_db_query_boundary { db := sampleDb } (fun db => db.gen) 7 "boom"
  exact ⟨h.2.1, h.2.2.1, h.2.2.2.1⟩

/-- C2 counterexample: the `impl AnalysisHost` block (source lines 38–53)
exposes only `analysis`, `raw_database` and `raw_database_mut`; it has no
public `apply_edit` (nor `apply_change`) operation. -/
theorem apply_edit_not_a_host_method :
    AnalysisHost.publicMethods.contains "apply_edit" = false ∧
    AnalysisHost.publicMethods.contains "apply_change" = false := by
  decide

/-- C2 amended: the Host exposes mutation only through the
`raw_database_mut` escape hatch; applying an edit through it with the
spec-modelled edit algorithm (raise the flag, acquire exclusivity, mutate)
leaves the stored facts reflecting the change, bumps the generation, installs
a fresh lowered flag, and the intermediate raised-flag state cancels every
query issued through the boundary against the superseded generation. -/
theorem apply_edit_reflects_change (h : AnalysisHost) (c : Change) :
    (h.apply_edit c).db.facts = c.apply h.db.facts ∧
    (h.apply_edit c).db.gen = h.db.gen + 1 ∧
    (h.apply_edit c).db.flag = false ∧
    (∀ (T : Type) (f : RootDatabase → T),
      Analysis.with_db { db := h.db.raiseFlag } f =
        CatchResult.returned (Except.error Cancelled.cancelled)) ∧
    h.apply_edit c = h.raw_database_mut (applyEditDb c) := by
  refine ⟨rfl, rfl, rfl, ?_, rfl⟩
  intro T f
  simp [Analysis.with_db, execQuery, RootDatabase.raiseFlag, Cancelled.catch]

/-- C3 counterexample: `Analysis::eqwalizer` (source lines 86–88) does not go
through the Query Boundary: on a snapshot whose Cancellation Flag is raised it
still returns the raw `Eqwalizer` handle — the same value as on a lowered-flag
snapshot — while a boundary accessor such as `line_index` returns the
`Cancelled` outcome on that same snapshot. -/
theorem eqwalizer_bypasses_boundary :
    Analysis.eqwalizer { db := sampleDbRaised } = sampleFacts.eqwalizer ∧
    Analysis.eqwalizer { db := sampleDbRaised } = Analysis.eqwalizer { db := sampleDb } ∧
    Analysis.line_index { db := sampleDbRaised } 0 =
      CatchResult.returned (Except.error Cancelled.cancelled) :=
  ⟨rfl, rfl, rfl⟩

/-- C3 amended: every accessor except `eqwalizer` is a thin pass-through of
the corresponding query through the Query Boundary with identical cancellation
behavior — `Cancelled` exactly when the snapshot's flag is raised, otherwise
the query's value wrapped as success — and `eqwalizer` is a direct read of the
database's eqwalizer handle, bypassing the boundary; all are pure reads of the
snapshot (none mutates any state). -/
theorem accessors_thin_pass_through (s : Analysis) (fid : FileId) (pid : ProjectId)
    (fids : List FileId) (fmt : Format) (m : String) :
    s.line_index fid =
      (if s.db.flag then CatchResult.returned (Except.error Cancelled.cancelled)
       else CatchResult.returned (Except.ok (s.db.facts.file_line_index fid))) ∧
    s.eqwalizer_diagnostics pid fids fmt =
      (if s.db.flag then CatchResult.returned (Except.error Cancelled.cancelled)
       else CatchResult.returned (Except.ok (s.db.facts.eqwalizer_diagnostics pid fids fmt))) ∧
    s.module_ast fid fmt =
      (if s.db.flag then CatchResult.returned (Except.error Cancelled.cancelled)
       else CatchResult.returned (Except.ok (s.db.facts.module_ast fid fmt))) ∧
    s.project_data fid =
      (if s.db.flag then CatchResult.returned (Except.error Cancelled.cancelled)
       else CatchResult.returned (Except.ok
         ((s.db.facts.app_data (s.db.facts.file_source_root fid)).map
           (fun ad => s.db.facts.project_data ad.project_id)))) ∧
    s.module_name fid =
      (if s.db.flag then CatchResult.returned (Except.error Cancelled.cancelled)
       else CatchResult.returned (Except.ok
         ((s.db.facts.app_data (s.db.facts.file_source_root fid)).bind
           (fun ad => (s.db.facts.module_index ad.project_id).module_for_file fid)))) ∧
    s.module_index pid =
      (if s.db.flag then CatchResult.returned (Except.error Cancelled.cancelled)
       else CatchResult.returned (Except.ok (s.db.facts.module_index pid))) ∧
    s.module_file_id pid m =
      (if s.db.flag then CatchResult.returned (Except.error Cancelled.cancelled)
       else CatchResult.returned (Except.ok
         ((s.db.facts.module_index pid).file_for_module m))) ∧
    s.file_app_type fid =
      (if s.db.flag then CatchResult.returned (Except.error Cancelled.cancelled)
       else CatchResult.returned (Except.ok (s.db.facts.file_app_type fid))) ∧
    s.eqwalizer = s.db.facts.eqwalizer := by
  cases hf : s.db.flag with
  | true =>
    refine ⟨?_, ?_, ?_, ?_, ?_, ?_, ?_, ?_, rfl⟩ <;>
      simp [Analysis.line_index, Analysis.eqwalizer_diagnostics, Analysis.module_ast,
        Analysis.project_data, Analysis.module_name, Analysis.module_index,
        Analysis.module_file_id, Analysis.file_app_type,
        Analysis.with_db, execQuery, Cancelled.catch, hf]
  | false =>
    refine ⟨?_, ?_, ?_, ?_, ?_, ?_, ?_, ?_, rfl⟩ <;>
      simp [Analysis.line_index, Analysis.eqwalizer_diagnostics, Analysis.module_ast,
        Analysis.project_data, Analysis.module_name, Analysis.module_index,
        Analysis.module_file_id, Analysis.file_app_type,
        Analysis.with_db, execQuery, Cancelled.catch, hf] <;>
      cases s.db.facts.app_data (s.db.facts.file_source_root fid) <;> rfl

/-- C4: `AnalysisHost::analysis` hands out a snapshot of the current
generation — same stored facts, same generation id, same Cancellation Flag —
it is total (never fails), and in this pure embedding of the shared-reference
receiver it leaves the Host's database untouched: `raw_database` still reads
the identical state. -/
theorem analysis_snapshot_no_side_effect (h : AnalysisHost) :
    (h.analysis).db = h.db ∧
    (h.analysis).db.gen = h.db.gen ∧
    (h.analysis).db.flag = h.db.flag ∧
    (h.analysis).db.facts = h.db.facts ∧
    h.raw_database = h.db :=
  ⟨rfl, rfl, rfl, rfl, rfl⟩

/-- C5: `impl Clone for Analysis` yields a snapshot bound to the same
generation and the same Cancellation Flag, and with no intervening edit the
clone answers every query — through `with_db` and through each accessor —
identically to the original. -/
theorem clone_same_generation_identical_queries {T : Type} (s : Analysis)
    (f : RootDatabase → T) (fid : FileId) (pid : ProjectId) (m : String) :
    (s.clone).db.gen = s.db.gen ∧
    (s.clone).db.flag = s.db.flag ∧
    (s.clone).with_db f = s.with_db f ∧
    (s.clone).line_index fid = s.line_index fid ∧
    (s.clone).module_file_id pid m = s.module_file_id pid m :=
  ⟨rfl, rfl, rfl, rfl, rfl⟩

/-- C6: once the generation's Cancellation Flag is raised, every query newly
started through the Query Boundary against a snapshot of that generation —
the generic `with_db` and each public accessor — yields the `Cancelled`
outcome; raising the flag leaves the generation's stored facts and id
untouched, so results already computed from them remain valid to read. -/
theorem raised_flag_cancels_new_queries {T : Type} (s : Analysis)
    (hf : s.db.flag = true) (f : RootDatabase → T) (fid : FileId)
    (pid : ProjectId) (fids : List FileId) (fmt : Format) (m : String) :
    s.with_db f = CatchResult.returned (Except.error Cancelled.cancelled) ∧
    s.line_index fid = CatchResult.returned (Except.error Cancelled.cancelled) ∧
    s.eqwalizer_diagnostics pid fids fmt =
      CatchResult.returned (Except.error Cancelled.cancelled) ∧
    s.module_ast fid fmt = CatchResult.returned (Except.error Cancelled.cancelled) ∧
    s.project_data fid = CatchResult.returned (Except.error Cancelled.cancelled) ∧
    s.module_name fid = CatchResult.returned (Except.error Cancelled.cancelled) ∧
    s.module_index pid = CatchResult.returned (Except.error Cancelled.cancelled) ∧
    s.module_file_id pid m = CatchResult.returned (Except.error Cancelled.cancelled) ∧
    s.file_app_type fid = CatchResult.returned (Except.error Cancelled.cancelled) ∧
    (s.db.raiseFlag).facts = s.db.facts ∧
    (s.db.raiseFlag).gen = s.db.gen := by
  refine ⟨?_, ?_, ?_, ?_, ?_, ?_, ?_, ?_, ?_, rfl, rfl⟩ <;>
    simp [Analysis.line_index, Analysis.eqwalizer_diagnostics, Analysis.module_ast,
      Analysis.project_data, Analysis.module_name, Analysis.module_index,
      Analysis.module_file_id, Analysis.file_app_type,
      Analysis.with_db, execQuery, Cancelled.catch, hf]

/-- C6 witness: a concrete raised-flag snapshot cancels a concrete query and
a concrete accessor call. -/
theorem raised_flag_cancels_new_queries_witness :
    Analysis.with_db { db := sampleDbRaised } (fun db => db.gen) =
      CatchResult.returned (Except.error Cancelled.cancelled) ∧
    Analysis.line_index { db := sampleDbRaised } 0 =
      CatchResult.returned (Except.error Cancelled.cancelled) := by
  have h := raised_flag_cancels_new_queries { db := sampleDbRaised } rfl
    (fun db => db.gen) 0 0 [] Format.text "main"
  exact ⟨h.1, h.2.1⟩

/-- C7: two snapshots of the same generation with no intervening edit (the
generation's flag still lowered): the snapshot from the Host and its clone
both complete the same query successfully and produce identical results —
the value the query computes from the shared database state. -/
theorem two_snapshots_identical_results {T : Type} (h : AnalysisHost)
    (hf : h.db.flag = false) (f : RootDatabase → T) :
    (h.analysis).with_db f = CatchResult.returned (Except.ok (f h.db)) ∧
    ((h.analysis).clone).with_db f = CatchResult.returned (Except.ok (f h.db)) ∧
    ((h.analysis).clone).with_db f = (h.analysis).with_db f := by
  refine ⟨?_, ?_, rfl⟩ <;>
    simp [AnalysisHost.analysis, Analysis.clone, RootDatabase.snapshot,
      Analysis.with_db, execQuery, Cancelled.catch, hf]

/-- C7 witness: two concrete snapshots of the sample generation answer a
concrete query successfully with the same value. -/
theorem two_snapshots_identical_results_witness :
    (AnalysisHost.analysis { db := sampleDb }).with_db
        (fun db => db.facts.file_line_index 0) =
      CatchResult.returned (Except.ok { newlines := [0] }) ∧
    ((AnalysisHost.analysis { db := sampleDb }).clone).with_db
        (fun db => db.facts.file_line_index 0) =
      CatchResult.returned (Except.ok { newlines := [0] }) := by
  have h := two_snapshots_identical_results { db := sampleDb } rfl
    (fun db => db.facts.file_line_index 0)
  exact ⟨h.1, h.2.1⟩

/-- C8: `Cancellable<T>` (source line 30) is exactly a sum: every inhabitant
is either a success carrying a `T` or the error carrying the typed
`Cancelled` signal, and `Cancelled` has a single, payload-free inhabitant. -/
theorem cancellable_is_value_or_cancelled {T : Type} :
    (∀ r : Cancellable T,
      (∃ v : T, r = Except.ok v) ∨ r = Except.error Cancelled.cancelled) ∧
    (∀ c : Cancelled, c = Cancelled.cancelled) := by
  constructor
  · intro r
    cases r with
    | error c => right; cases c; rfl
    | ok v => left; exact ⟨v, rfl⟩
  · intro c
    cases c
    rfl

/-- C9: when not cancelled, `Analysis::project_data` encodes a missing edge
in the `Option`: it returns `Ok(None)` exactly when the file's source root has
no associated app data, and `Ok(Some(d))` with `d` the project data of that
app's `project_id` otherwise — never an error and never `Cancelled`. -/
theorem project_data_missing_app_data_edge (s : Analysis)
    (hf : s.db.flag = false) (fid : FileId) :
    (s.db.facts.app_data (s.db.facts.file_source_root fid) = none →
      s.project_data fid = CatchResult.returned (Except.ok none)) ∧
    (∀ ad : AppData,
      s.db.facts.app_data (s.db.facts.file_source_root fid) = some ad →
      s.project_data fid =
        CatchResult.returned (Except.ok (some (s.db.facts.project_data ad.project_id)))) := by
  constructor
  · intro hnone
    simp [Analysis.project_data, Analysis.with_db, execQuery, Cancelled.catch, hf, hnone]
  · intro ad had
    simp [Analysis.project_data, Analysis.with_db, execQuery, Cancelled.catch, hf, had]

/-- C9 witness: on the sample database, file 5 has no app data and yields
`Ok(None)`; file 0 has app data of project 0 and yields its project data. -/
theorem project_data_missing_app_data_edge_witness :
    Analysis.project_data { db := sampleDb } 5 =
      CatchResult.returned (Except.ok none) ∧
    Analysis.project_data { db := sampleDb } 0 =
      CatchResult.returned (Except.ok (some { name := "proj" })) :=
  ⟨(project_data_missing_app_data_edge { db := sampleDb } rfl 5).1 rfl,
   (project_data_missing_app_data_edge { db := sampleDb } rfl 0).2 { project_id := 0 } rfl⟩

/-- C10: when not cancelled, `Analysis::module_file_id` agrees with looking
the module up via `file_for_module` in the index that
`Analysis::module_index` returns on the same snapshot: the two public
accessors are mutually consistent. -/
theorem module_file_id_consistent_with_module_index (s : Analysis)
    (hf : s.db.flag = false) (pid : ProjectId) (m : String) :
    s.module_index pid =
      CatchResult.returned (Except.ok (s.db.facts.module_index pid)) ∧
    s.module_file_id pid m =
      CatchResult.returned
        (Except.ok ((s.db.facts.module_index pid).file_for_module m)) := by
  constructor <;>
    simp [Analysis.module_index, Analysis.module_file_id,
      Analysis.with_db, execQuery, Cancelled.catch, hf]

/-- C10 witness: on the sample database, `module_index` returns the sample
index and `module_file_id` resolves module `lists` to file 1, which is
exactly `file_for_module` applied to that index. -/
theorem module_file_id_consistent_with_module_index_witness :
    Analysis.module_index { db := sampleDb } 0 =
      CatchResult.returned (Except.ok sampleModuleIndex) ∧
    Analysis.module_file_id { db := sampleDb } 0 "lists" =
      CatchResult.returned (Except.ok (some 1)) := by
  have h := module_file_id_consistent_with_module_index { db := sampleDb } rfl 0 "lists"
  exact ⟨h.1, h.2⟩

end MiniElp
